import Mathlib

/-!
Verification of the Windows-installer orchestration core: a shallow
embedding of the installation ledger (`database/installations.py`), the
remote execution client (`core/ssh_manager.py`) and the installation
orchestrator (`handlers/install.py`), using the configuration constants
of `config/settings.py`.  Time stamps and elapsed clock readings are
modelled as natural numbers of seconds; fallible remote calls are
parametrised by an explicit outcome describing what the remote side did.
-/

namespace WinInstaller

/-! ## Configuration constants (`config/settings.py`) -/

def RDP_PORT : Nat := 22
def MIN_RAM_MB : Nat := 2048
def MIN_DISK_GB : Nat := 30
def SUPPORTED_OS_TYPES : List String := ["ubuntu", "debian"]
def TIMEOUT_SSH_EXECUTE : Nat := 60
def TIMEOUT_SSH_LONG : Nat := 180
def TIMEOUT_INSTALLATION : Nat := 1800
def TIMEOUT_MONITORING_START : Nat := 360
def TIMEOUT_MONITORING_CHECKS : Nat := 2

/-- `max_monitoring_time` of the monitoring loop in
`InstallHandler.process_installation`: `TIMEOUT_INSTALLATION - TIMEOUT_MONITORING_START`. -/
def maxMonitoringTime : Nat := TIMEOUT_INSTALLATION - TIMEOUT_MONITORING_START

def INSTALL_STATUS_STARTING : String := "starting"
def INSTALL_STATUS_CONNECTING : String := "connecting"
def INSTALL_STATUS_CHECKING : String := "checking"
def INSTALL_STATUS_PREPARING : String := "preparing"
def INSTALL_STATUS_INSTALLING : String := "installing"
def INSTALL_STATUS_MONITORING : String := "monitoring"
def INSTALL_STATUS_COMPLETED : String := "completed"
def INSTALL_STATUS_FAILED : String := "failed"
def INSTALL_STATUS_TIMEOUT : String := "timeout"

/-- The six non-terminal statuses, as listed in
`InstallationDatabase.cleanup_stuck_installations` and
`get_active_installations`. -/
def activeStatuses : List String :=
  [INSTALL_STATUS_STARTING, INSTALL_STATUS_CONNECTING, INSTALL_STATUS_CHECKING,
   INSTALL_STATUS_PREPARING, INSTALL_STATUS_INSTALLING, INSTALL_STATUS_MONITORING]

/-- The three terminal statuses. -/
def terminalStatuses : List String :=
  [INSTALL_STATUS_COMPLETED, INSTALL_STATUS_FAILED, INSTALL_STATUS_TIMEOUT]

/-! ## Data model -/

/-- The RDP connection payload stored in the `rdp_info` column and returned
to callers. -/
structure RdpInfo where
  ip : String
  port : Nat
  username : String
  password : String
deriving DecidableEq, Repr

/-- The `extra_data` dictionary accepted by
`InstallationDatabase.update_status`; each key is optional. -/
structure ExtraData where
  rdp_info : Option RdpInfo
  boot_mode : Option String
  error : Option String
deriving DecidableEq, Repr

/-- `update_status` called with `extra_data = None`. -/
def noExtra : ExtraData :=
  { rdp_info := none, boot_mode := none, error := none }

/-- `update_status` called with `extra_data = {'error': msg}`. -/
def errorExtra (msg : String) : ExtraData :=
  { rdp_info := none, boot_mode := none, error := some msg }

/-- One row of the `installations` table (the columns the asserted
behaviour depends on). -/
structure InstallRecord where
  installId : String
  userId : Nat
  status : String
  startTime : Nat
  endTime : Option Nat
  ip : String
  bootMode : String
  currentStep : String
  error : Option String
  rdpInfo : Option RdpInfo
  lastUpdate : Nat
deriving DecidableEq, Repr

/-- One row of the `installation_logs` table. -/
structure LogEntry where
  timestamp : Nat
  message : String
deriving DecidableEq, Repr

/-! ## Installation ledger (`database/installations.py`) -/

/-- `InstallationDatabase.create_installation`: the freshly inserted row
(status `starting`, no `end_time`, no `error`, no `rdp_info`). -/
def create_installation (installId : String) (userId : Nat) (ip : String)
    (bootMode : String) (now : Nat) : InstallRecord :=
  { installId := installId, userId := userId, status := INSTALL_STATUS_STARTING,
    startTime := now, endTime := none, ip := ip, bootMode := bootMode,
    currentStep := "Starting installation", error := none, rdpInfo := none,
    lastUpdate := now }

/-- `InstallationDatabase.update_status` applied to one row: the base
update always sets `status` and `last_update`; the `completed`, `failed`
and `timeout` statuses additionally set `end_time` plus their
status-specific columns, where a `completed` update with an `rdp_info`
payload forces its port to `RDP_PORT`. -/
def update_status (rec : InstallRecord) (now : Nat) (status : String)
    (extra : ExtraData) : InstallRecord :=
  let base := { rec with status := status, lastUpdate := now }
  if status = INSTALL_STATUS_COMPLETED then
    let r1 := { base with endTime := some now, currentStep := "Installation complete" }
    let r2 := match extra.rdp_info with
      | some rdp => { r1 with rdpInfo := some { rdp with port := RDP_PORT } }
      | none => r1
    match extra.boot_mode with
      | some b => { r2 with bootMode := b }
      | none => r2
  else if status = INSTALL_STATUS_FAILED then
    let errorMsg := (extra.error).getD "Unknown error"
    { base with endTime := some now,
                currentStep := "Failed: " ++ errorMsg.take 100,
                error := some errorMsg }
  else if status = INSTALL_STATUS_TIMEOUT then
    { base with endTime := some now,
                currentStep := "Installation timeout",
                error := some "Installation exceeded 30 minutes timeout" }
  else
    base

/-- `InstallationDatabase.cleanup_stuck_installations` applied to one row:
rows whose `start_time` is older than `now - TIMEOUT_INSTALLATION` and
whose status is non-terminal are forced to `timeout`. -/
def sweepRecord (now : Nat) (rec : InstallRecord) : InstallRecord :=
  if rec.startTime < now - TIMEOUT_INSTALLATION ∧ rec.status ∈ activeStatuses then
    { rec with status := INSTALL_STATUS_TIMEOUT,
               error := some "Installation timeout (30 minutes)",
               endTime := some now,
               currentStep := "Installation timeout",
               lastUpdate := now }
  else rec

/-- The whole-table stuck-job sweep. -/
def cleanup_stuck_installations (now : Nat) (recs : List InstallRecord) :
    List InstallRecord :=
  recs.map (sweepRecord now)

/-- Insertion step of a sort by descending numeric key (the model of the
SQL `ORDER BY ... DESC` used by the ledger read queries). -/
def insertDescBy (key : α → Nat) (e : α) : List α → List α
  | [] => [e]
  | x :: xs => if key x ≤ key e then e :: x :: xs else x :: insertDescBy key e xs

/-- Sort by descending numeric key. -/
def sortDescBy (key : α → Nat) : List α → List α
  | [] => []
  | x :: xs => insertDescBy key x (sortDescBy key xs)

/-- `InstallationDatabase.get_logs`: fetch in reverse-chronological order,
truncate to `limit`, then reverse back to chronological order. -/
def get_logs (logs : List LogEntry) (limit : Nat) : List LogEntry :=
  ((sortDescBy LogEntry.timestamp logs).take limit).reverse

/-- The port normalisation performed by every ledger read that surfaces an
`rdp_info` payload ("Ensure port is always 22"). -/
def normalizeRdpPort : Option RdpInfo → Option RdpInfo
  | none => none
  | some rdp => some { rdp with port := RDP_PORT }

/-- The per-row formatting done by `get` and `get_user_installations`
(datetime/JSON conversions are identities in the model; the port of any
surfaced RDP payload is forced to `RDP_PORT`). -/
def formatInstallation (rec : InstallRecord) : InstallRecord :=
  { rec with rdpInfo := normalizeRdpPort rec.rdpInfo }

/-- `InstallationDatabase.get`: look the row up by id and format it. -/
def getInstallation (recs : List InstallRecord) (installId : String) :
    Option InstallRecord :=
  (recs.find? (fun r => r.installId == installId)).map formatInstallation

/-- `InstallationDatabase.get_user_installations`: filter by owner (and
optional status), order by `start_time` descending, format each row. -/
def get_user_installations (recs : List InstallRecord) (userId : Nat)
    (statusFilter : Option String) : List InstallRecord :=
  let filtered := recs.filter (fun r =>
    r.userId == userId &&
      (match statusFilter with
       | none => true
       | some s => r.status == s))
  (sortDescBy (fun r => r.startTime) filtered).map formatInstallation

/-! ## Remote execution client (`core/ssh_manager.py`) -/

/-- What the remote side did during `SSHManager.connect`. -/
inductive ConnectOutcome where
  | ok
  | permissionDenied
  | timedOut
  | otherError (msg : String)
deriving DecidableEq, Repr

def authFailedMsg : String := "Authentication failed - incorrect password or username"
def connectTimeoutMsg : String := "Connection timeout - VPS unreachable or SSH port blocked"

/-- `SSHManager.connect`: success flag and the reason string surfaced to
the caller, classified by the exception raised. -/
def sshConnect : ConnectOutcome → Bool × String
  | .ok => (true, "Connected")
  | .permissionDenied => (false, authFailedMsg)
  | .timedOut => (false, connectTimeoutMsg)
  | .otherError msg => (false, "Connection error: " ++ msg)

/-- What the remote side did during one `SSHManager.execute` call. -/
inductive ExecOutcome where
  | success (stdout stderr : String)
  | timedOut
  | failure (msg : String)
deriving DecidableEq, Repr

/-- `SSHManager.execute`: the `(ok, stdout, stderr)` triple.  A per-call
timeout is caught inside `execute` and reported as
`(False, "", "Command timeout after N seconds")`; any other exception as
`(False, "", str(e))`. -/
def execute (connected : Bool) (timeout : Nat) (outcome : ExecOutcome) :
    Bool × String × String :=
  if connected then
    match outcome with
    | .success stdout stderr => (true, stdout, stderr)
    | .timedOut => (false, "", "Command timeout after " ++ toString timeout ++ " seconds")
    | .failure msg => (false, "", msg)
  else (false, "", "Not connected")

/-- Does the character list start with the pattern `p`? -/
def startsWithChars (p l : List Char) : Bool :=
  match p, l with
  | [], _ => true
  | _ :: _, [] => false
  | a :: as, b :: bs => a == b && startsWithChars as bs

/-- Does the pattern occur somewhere in the character list? -/
def occursInChars (p l : List Char) : Bool :=
  match l with
  | [] => startsWithChars p []
  | b :: rest => startsWithChars p (b :: rest) || occursInChars p rest

/-- Python's case-sensitive substring test `marker in s`. -/
def containsSub (s marker : String) : Bool :=
  occursInChars marker.data s.data

/-- Result of `SSHManager.start_installation`, together with whether the
reboot-scheduling command was attempted. -/
structure StartInstallResult where
  ok : Bool
  message : String
  rebootAttempted : Bool
deriving DecidableEq, Repr

def startInstallSuccessMsg : String :=
  "Installation configured successfully. VPS will reboot in 5 seconds. " ++
    "RDP will be available on port " ++ toString RDP_PORT ++ "."

/-- `SSHManager.start_installation`: runs the install command through
`execute` under `TIMEOUT_SSH_LONG`; the only failure test on the result is
the case-sensitive marker scan of the captured stderr (the `success` flag
returned by `execute` is never consulted); when no marker is found the
reboot command is attempted and a success result is returned. -/
def start_installation (connected : Bool) (installExec : ExecOutcome) :
    StartInstallResult :=
  if connected then
    let r := execute true TIMEOUT_SSH_LONG installExec
    let stderr := r.2.2
    if stderr != "" && (containsSub stderr "Error" || containsSub stderr "Failed") then
      { ok := false, message := "Installation error: " ++ stderr.take 200,
        rebootAttempted := false }
    else
      { ok := true, message := startInstallSuccessMsg, rebootAttempted := true }
  else { ok := false, message := "Not connected", rebootAttempted := false }

/-! ## Installation orchestrator (`handlers/install.py`) -/

/-- System specification probe results
(`SSHManager.check_system_specs`). -/
structure SystemSpecs where
  ram_mb : Nat
  disk_gb : Nat
  cpu_cores : Nat
  os_type : String
  boot_mode : String
deriving DecidableEq, Repr

/-- The environment of one orchestration run: what the ledger insert and
each remote phase would report.  The monitoring trace lists, for each
iteration of the polling loop, the elapsed monitoring clock at the top of
the iteration and the port-probe result. -/
structure OrchestratorEnv where
  createOk : Bool
  connectOutcome : ConnectOutcome
  specs : SystemSpecs
  prepareResult : Bool × String
  installResult : Bool × String
  monitorTrace : List (Nat × Bool)
deriving DecidableEq, Repr

/-- Result of the monitoring loop. -/
inductive MonitorOutcome where
  | completed
  | timedOut
deriving DecidableEq, Repr

/-- The monitoring loop of `InstallHandler.process_installation`
(lines 339-379): at each iteration first compare the elapsed monitoring
clock against `maxMonitoringTime`; then probe the monitoring port,
counting consecutive closed probes and resetting the counter on an open
probe; finish once `TIMEOUT_MONITORING_CHECKS` consecutive closed probes
are seen.  `none` means the observed trace ended with the loop still
running. -/
def monitorLoop (counter : Nat) : List (Nat × Bool) → Option MonitorOutcome
  | [] => none
  | (elapsed, portOpen) :: rest =>
    if maxMonitoringTime < elapsed then some MonitorOutcome.timedOut
    else if portOpen then monitorLoop 0 rest
    else if TIMEOUT_MONITORING_CHECKS ≤ counter + 1 then some MonitorOutcome.completed
    else monitorLoop (counter + 1) rest

/-- The `result_data` dictionary returned by
`InstallHandler.process_installation`. -/
structure ResultData where
  status : String
  error : Option String
  rdpInfo : Option RdpInfo
  bootMode : String
deriving DecidableEq, Repr

/-- Observable outcome of one orchestration run: its returned status and
`result_data`, the sequence of `update_status` ledger writes it issued,
and whether the prepare / install remote operations were invoked. -/
structure RunOutput where
  finalStatus : String
  result : ResultData
  statusWrites : List (String × ExtraData)
  prepareInvoked : Bool
  installInvoked : Bool
deriving DecidableEq, Repr

/-- A run that exits through one of the explicit failure branches. -/
def failOutput (err : String) (bootMode : String)
    (writes : List (String × ExtraData)) (prep inst : Bool) : RunOutput :=
  { finalStatus := INSTALL_STATUS_FAILED,
    result := { status := INSTALL_STATUS_FAILED, error := some err,
                rdpInfo := none, bootMode := bootMode },
    statusWrites := writes, prepareInvoked := prep, installInvoked := inst }

/-- `InstallHandler.process_installation`: the phase sequence
connecting → checking → preparing → installing → monitoring with its
early exits, spec checks in the order RAM, disk, OS family, and the
monitoring loop deciding between `completed` and `timeout`.  On `timeout`
the status write carries no extra payload while the returned
`result_data` carries the speculative RDP payload; on `completed` the
status write carries the RDP payload and boot mode.  `none` means the
monitoring trace ended with the run still in progress. -/
def process_installation (ip rdpPassword : String) (env : OrchestratorEnv) :
    Option RunOutput :=
  if env.createOk then
    let connectRes := sshConnect env.connectOutcome
    if connectRes.1 then
      let w2 := [(INSTALL_STATUS_CONNECTING, noExtra), (INSTALL_STATUS_CHECKING, noExtra)]
      if env.specs.ram_mb < MIN_RAM_MB then
        some (failOutput "Insufficient RAM" "unknown"
          (w2 ++ [(INSTALL_STATUS_FAILED, errorExtra "Insufficient RAM")]) false false)
      else if env.specs.disk_gb < MIN_DISK_GB then
        some (failOutput "Insufficient disk" "unknown"
          (w2 ++ [(INSTALL_STATUS_FAILED, errorExtra "Insufficient disk")]) false false)
      else if env.specs.os_type ∈ SUPPORTED_OS_TYPES then
        let bootMode := env.specs.boot_mode
        let w3 := w2 ++ [(INSTALL_STATUS_PREPARING, noExtra)]
        if env.prepareResult.1 then
          let w4 := w3 ++ [(INSTALL_STATUS_INSTALLING, noExtra)]
          if env.installResult.1 then
            let w5 := w4 ++ [(INSTALL_STATUS_MONITORING, noExtra)]
            match monitorLoop 0 env.monitorTrace with
            | none => none
            | some MonitorOutcome.timedOut =>
              some { finalStatus := INSTALL_STATUS_TIMEOUT,
                     result := { status := INSTALL_STATUS_TIMEOUT, error := none,
                                 rdpInfo := some { ip := ip, port := RDP_PORT,
                                                   username := "Administrator",
                                                   password := rdpPassword },
                                 bootMode := bootMode },
                     statusWrites := w5 ++ [(INSTALL_STATUS_TIMEOUT, noExtra)],
                     prepareInvoked := true, installInvoked := true }
            | some MonitorOutcome.completed =>
              let rdp : RdpInfo := { ip := ip, port := RDP_PORT,
                                     username := "Administrator", password := rdpPassword }
              some { finalStatus := INSTALL_STATUS_COMPLETED,
                     result := { status := INSTALL_STATUS_COMPLETED, error := none,
                                 rdpInfo := some rdp, bootMode := bootMode },
                     statusWrites := w5 ++
                       [(INSTALL_STATUS_COMPLETED,
                         { rdp_info := some rdp, boot_mode := some bootMode, error := none })],
                     prepareInvoked := true, installInvoked := true }
          else
            some (failOutput env.installResult.2 bootMode
              (w4 ++ [(INSTALL_STATUS_FAILED, errorExtra env.installResult.2)]) true true)
        else
          some (failOutput env.prepareResult.2 bootMode
            (w3 ++ [(INSTALL_STATUS_FAILED, errorExtra env.prepareResult.2)]) true false)
      else
        some (failOutput "Unsupported OS" "unknown"
          (w2 ++ [(INSTALL_STATUS_FAILED, errorExtra "Unsupported OS")]) false false)
    else
      some (failOutput connectRes.2 "unknown"
        [(INSTALL_STATUS_CONNECTING, noExtra),
         (INSTALL_STATUS_FAILED, errorExtra connectRes.2)] false false)
  else
    some (failOutput "Failed to create installation record" "unknown" [] false false)

/-- Replay a run's `update_status` writes onto a ledger row. -/
def applyStatusWrites (rec : InstallRecord) (now : Nat)
    (writes : List (String × ExtraData)) : InstallRecord :=
  writes.foldl (fun r w => update_status r now w.1 w.2) rec

/-- The `end_time`/terminal-phase invariant asserted by the spec. -/
def completionInvariant (rec : InstallRecord) : Prop :=
  rec.endTime ≠ none ↔ rec.status ∈ terminalStatuses

/-- A mutation of one ledger row by the write operations of
`database/installations.py`. -/
inductive LedgerOp where
  | updateStatus (now : Nat) (status : String) (extra : ExtraData)
  | stuckSweep (now : Nat)
deriving DecidableEq, Repr

/-- Apply one ledger write operation to a row. -/
def applyLedgerOp (rec : InstallRecord) : LedgerOp → InstallRecord
  | .updateStatus now status extra => update_status rec now status extra
  | .stuckSweep now => sweepRecord now rec

/-! ## Concrete fixtures used by the witnesses and counterexamples -/

/-- A stored RDP payload carrying a stale port value. -/
def staleRdp : RdpInfo :=
  { ip := "203.0.113.9", port := 9999, username := "Administrator", password := "pw12345678" }

/-- A completed ledger row whose persisted RDP payload carries a stale port. -/
def staleRecord : InstallRecord :=
  { installId := "install_7_deadbeef", userId := 7, status := "completed",
    startTime := 10, endTime := some 900, ip := "203.0.113.9", bootMode := "legacy",
    currentStep := "Installation complete", error := none,
    rdpInfo := some staleRdp, lastUpdate := 900 }

/-- A run whose connect attempt fails with bad credentials. -/
def envAuthFail : OrchestratorEnv :=
  { createOk := true, connectOutcome := ConnectOutcome.permissionDenied,
    specs := { ram_mb := 4096, disk_gb := 50, cpu_cores := 2,
               os_type := "ubuntu", boot_mode := "legacy" },
    prepareResult := (true, "Ready"), installResult := (true, "ok"),
    monitorTrace := [] }

/-- A run whose monitoring trace ends with two consecutive closed probes. -/
def envMonitorDone : OrchestratorEnv :=
  { createOk := true, connectOutcome := ConnectOutcome.ok,
    specs := { ram_mb := 4096, disk_gb := 50, cpu_cores := 2,
               os_type := "ubuntu", boot_mode := "uefi" },
    prepareResult := (true, "Ready"), installResult := (true, "ok"),
    monitorTrace := [(400, true), (410, false), (420, false)] }

/-- A run whose monitoring clock passes the deadline after a single miss. -/
def envMonitorTimeout : OrchestratorEnv :=
  { createOk := true, connectOutcome := ConnectOutcome.ok,
    specs := { ram_mb := 4096, disk_gb := 50, cpu_cores := 2,
               os_type := "debian", boot_mode := "legacy" },
    prepareResult := (true, "Ready"), installResult := (true, "ok"),
    monitorTrace := [(100, false), (1441, true)] }

/-- A run against a host with only 1024 MB of RAM. -/
def envLowRam : OrchestratorEnv :=
  { createOk := true, connectOutcome := ConnectOutcome.ok,
    specs := { ram_mb := 1024, disk_gb := 50, cpu_cores := 2,
               os_type := "ubuntu", boot_mode := "legacy" },
    prepareResult := (true, "Ready"), installResult := (true, "ok"),
    monitorTrace := [] }

/-- A run whose monitoring loop hits the deadline on its first iteration. -/
def envTimeoutRun : OrchestratorEnv :=
  { createOk := true, connectOutcome := ConnectOutcome.ok,
    specs := { ram_mb := 4096, disk_gb := 50, cpu_cores := 2,
               os_type := "ubuntu", boot_mode := "legacy" },
    prepareResult := (true, "Ready"), installResult := (true, "ok"),
    monitorTrace := [(1441, true)] }

instance completionInvariantDecidable (rec : InstallRecord) :
    Decidable (completionInvariant rec) :=
  inferInstanceAs (Decidable (rec.endTime ≠ none ↔ rec.status ∈ terminalStatuses))

/-! ## Helper lemmas -/

theorem sweepRecord_eq_pos (now : Nat) (rec : InstallRecord)
    (h : rec.startTime < now - TIMEOUT_INSTALLATION ∧ rec.status ∈ activeStatuses) :
    sweepRecord now rec =
      { rec with
          status := INSTALL_STATUS_TIMEOUT,
          error := some "Installation timeout (30 minutes)",
          endTime := some now,
          currentStep := "Installation timeout",
          lastUpdate := now } := by
  rw [sweepRecord, if_pos h]

theorem sweepRecord_eq_neg (now : Nat) (rec : InstallRecord)
    (h : ¬(rec.startTime < now - TIMEOUT_INSTALLATION ∧ rec.status ∈ activeStatuses)) :
    sweepRecord now rec = rec := by
  rw [sweepRecord, if_neg h]

theorem sweepRecord_idem (now : Nat) (r : InstallRecord) :
    sweepRecord now (sweepRecord now r) = sweepRecord now r := by
  by_cases h : r.startTime < now - TIMEOUT_INSTALLATION ∧ r.status ∈ activeStatuses
  · rw [sweepRecord_eq_pos now r h, sweepRecord_eq_neg]
    rintro ⟨-, hmem⟩
    have hmem' : INSTALL_STATUS_TIMEOUT ∈ activeStatuses := hmem
    exact absurd hmem' (by decide)
  · rw [sweepRecord_eq_neg now r h, sweepRecord_eq_neg now r h]

theorem formatInstallation_port (r : InstallRecord) (rdp : RdpInfo)
    (h : (formatInstallation r).rdpInfo = some rdp) : rdp.port = RDP_PORT := by
  cases hr : r.rdpInfo with
  | none => simp [formatInstallation, normalizeRdpPort, hr] at h
  | some rdp0 =>
    simp [formatInstallation, normalizeRdpPort, hr] at h
    rw [← h]

theorem connError_ne_of_get11 (m target : String) (h11 : target.data[11]? ≠ some 'e') :
    "Connection error: " ++ m ≠ target := by
  intro h
  have hd : "Connection error: ".data ++ m.data = target.data := by
    rw [← String.data_append, h]
  apply h11
  rw [← hd, List.getElem?_append, if_pos (by decide)]
  decide

theorem insertDescBy_of_lt {α : Type} (key : α → Nat) (e : α) (l : List α)
    (h : ∀ x ∈ l, key e < key x) : insertDescBy key e l = l ++ [e] := by
  induction l with
  | nil => rfl
  | cons x xs ih =>
    rw [insertDescBy, if_neg (Nat.not_le.mpr (h x (List.mem_cons_self x xs))),
      ih (fun y hy => h y (List.mem_cons_of_mem x hy))]
    rfl

theorem sortDescBy_of_pairwise {α : Type} (key : α → Nat) (l : List α)
    (h : l.Pairwise (fun a b => key a < key b)) : sortDescBy key l = l.reverse := by
  induction l with
  | nil => rfl
  | cons x xs ih =>
    rw [List.pairwise_cons] at h
    rw [sortDescBy, ih h.2,
      insertDescBy_of_lt key x xs.reverse (fun y hy => h.1 y (List.mem_reverse.mp hy)),
      List.reverse_cons]

theorem monitorLoop_completes (i : Nat) :
    ∀ (tr : List (Nat × Bool)) (counter : Nat),
    (tr[i]?).map Prod.snd = some false →
    (tr[i+1]?).map Prod.snd = some false →
    (∀ j, j ≤ i + 1 → ∀ t b, tr[j]? = some (t, b) → t ≤ maxMonitoringTime) →
    monitorLoop counter tr = some MonitorOutcome.completed := by
  induction i with
  | zero =>
    intro tr counter h0 h1 htime
    cases tr with
    | nil => simp at h0
    | cons p rest =>
      cases rest with
      | nil => simp at h1
      | cons q rest' =>
        obtain ⟨t0, b0⟩ := p
        obtain ⟨t1, b1⟩ := q
        simp only [List.getElem?_cons_zero, List.getElem?_cons_succ,
          Option.map_some', Option.some.injEq] at h0 h1
        have ht0 : t0 ≤ maxMonitoringTime := htime 0 (by omega) t0 b0 (by simp)
        have ht1 : t1 ≤ maxMonitoringTime := htime 1 (by omega) t1 b1 (by simp)
        subst h0
        subst h1
        by_cases hcnt : TIMEOUT_MONITORING_CHECKS ≤ counter + 1
        · simp [monitorLoop, Nat.not_lt.mpr ht0, hcnt]
        · have hcnt2 : TIMEOUT_MONITORING_CHECKS ≤ counter + 1 + 1 := by
            simp only [TIMEOUT_MONITORING_CHECKS] at hcnt ⊢
            omega
          simp [monitorLoop, Nat.not_lt.mpr ht0, Nat.not_lt.mpr ht1, hcnt, hcnt2]
  | succ i ih =>
    intro tr counter h0 h1 htime
    cases tr with
    | nil => simp at h0
    | cons p rest =>
      obtain ⟨t0, b0⟩ := p
      have ht0 : t0 ≤ maxMonitoringTime := htime 0 (by omega) t0 b0 (by simp)
      simp only [List.getElem?_cons_succ] at h0 h1
      have htime' : ∀ j, j ≤ i + 1 → ∀ t b, rest[j]? = some (t, b) → t ≤ maxMonitoringTime :=
        fun j hj t b hjb => htime (j+1) (by omega) t b (by simpa using hjb)
      cases b0 with
      | true =>
        simpa [monitorLoop, Nat.not_lt.mpr ht0] using ih rest 0 h0 h1 htime'
      | false =>
        by_cases hcnt : TIMEOUT_MONITORING_CHECKS ≤ counter + 1
        · simp [monitorLoop, Nat.not_lt.mpr ht0, hcnt]
        · simpa [monitorLoop, Nat.not_lt.mpr ht0, hcnt] using
            ih rest (counter + 1) h0 h1 htime'

theorem monitorLoop_times_out (k : Nat) :
    ∀ (tr : List (Nat × Bool)) (tk : Nat) (bk : Bool),
    tr[k]? = some (tk, bk) →
    maxMonitoringTime < tk →
    (∀ j t b, j < k → tr[j]? = some (t, b) → t ≤ maxMonitoringTime) →
    (∀ j, j + 1 < k →
      ¬((tr[j]?).map Prod.snd = some false ∧ (tr[j+1]?).map Prod.snd = some false)) →
    monitorLoop 0 tr = some MonitorOutcome.timedOut := by
  induction k using Nat.strong_induction_on with
  | _ k ih =>
    intro tr tk bk hk htk hbefore hnomiss
    cases tr with
    | nil => simp at hk
    | cons p rest =>
      obtain ⟨t0, b0⟩ := p
      cases k with
      | zero =>
        simp only [List.getElem?_cons_zero, Option.some_inj] at hk
        injection hk with h1 h2
        subst h1
        rw [monitorLoop, if_pos htk]
      | succ k1 =>
        have ht0 : t0 ≤ maxMonitoringTime := hbefore 0 t0 b0 (by omega) (by simp)
        simp only [List.getElem?_cons_succ] at hk
        cases b0 with
        | true =>
          have hstep : monitorLoop 0 ((t0, true) :: rest) = monitorLoop 0 rest := by
            simp [monitorLoop, Nat.not_lt.mpr ht0]
          rw [hstep]
          exact ih k1 (by omega) rest tk bk hk htk
            (fun j t b hj hjb => hbefore (j+1) t b (by omega) (by simpa using hjb))
            (fun j hj => by simpa using hnomiss (j+1) (by omega))
        | false =>
          cases k1 with
          | zero =>
            cases rest with
            | nil => simp at hk
            | cons q rest' =>
              obtain ⟨t1, b1⟩ := q
              simp only [List.getElem?_cons_zero, Option.some_inj] at hk
              injection hk with h1 h2
              subst h1
              simp [monitorLoop, Nat.not_lt.mpr ht0, htk, TIMEOUT_MONITORING_CHECKS]
          | succ m =>
            cases rest with
            | nil => simp at hk
            | cons q rest' =>
              obtain ⟨t1, b1⟩ := q
              have hb1 : b1 = true := by
                have hn := hnomiss 0 (by omega)
                simp only [List.getElem?_cons_zero, List.getElem?_cons_succ,
                  Option.map_some'] at hn
                simpa using hn
              have ht1 : t1 ≤ maxMonitoringTime := hbefore 1 t1 b1 (by omega) (by simp)
              subst hb1
              have hstep : monitorLoop 0 ((t0, false) :: (t1, true) :: rest') =
                  monitorLoop 0 rest' := by
                simp [monitorLoop, Nat.not_lt.mpr ht0, Nat.not_lt.mpr ht1,
                  TIMEOUT_MONITORING_CHECKS]
              rw [hstep]
              apply ih m (by omega) rest' tk bk (by simpa using hk) htk
              · intro j t b hj hjb
                exact hbefore (j+2) t b (by omega) (by simpa using hjb)
              · intro j hj
                simpa using hnomiss (j+2) (by omega)

theorem process_installation_monitor_phase (ip pw : String) (env : OrchestratorEnv)
    (hc : env.createOk = true) (hconn : (sshConnect env.connectOutcome).1 = true)
    (hram : MIN_RAM_MB ≤ env.specs.ram_mb) (hdisk : MIN_DISK_GB ≤ env.specs.disk_gb)
    (hos : env.specs.os_type ∈ SUPPORTED_OS_TYPES)
    (hprep : env.prepareResult.1 = true) (hinst : env.installResult.1 = true) :
    (process_installation ip pw env).map RunOutput.finalStatus =
      (monitorLoop 0 env.monitorTrace).map
        (fun m => match m with
          | MonitorOutcome.completed => INSTALL_STATUS_COMPLETED
          | MonitorOutcome.timedOut => INSTALL_STATUS_TIMEOUT) := by
  simp only [process_installation, hc, hconn, Nat.not_lt.mpr hram, Nat.not_lt.mpr hdisk,
    hos, hprep, hinst, if_true, if_false, ite_true, ite_false, if_pos, if_neg]
  cases hm : monitorLoop 0 env.monitorTrace with
  | none => simp [hm]
  | some m => cases m <;> simp [hm]

theorem process_installation_timeout_output (ip pw : String) (env : OrchestratorEnv)
    (hc : env.createOk = true) (hconn : (sshConnect env.connectOutcome).1 = true)
    (hram : MIN_RAM_MB ≤ env.specs.ram_mb) (hdisk : MIN_DISK_GB ≤ env.specs.disk_gb)
    (hos : env.specs.os_type ∈ SUPPORTED_OS_TYPES)
    (hprep : env.prepareResult.1 = true) (hinst : env.installResult.1 = true)
    (hmon : monitorLoop 0 env.monitorTrace = some MonitorOutcome.timedOut) :
    process_installation ip pw env = some
      { finalStatus := INSTALL_STATUS_TIMEOUT,
        result := { status := INSTALL_STATUS_TIMEOUT, error := none,
                    rdpInfo := some { ip := ip, port := RDP_PORT,
                                      username := "Administrator", password := pw },
                    bootMode := env.specs.boot_mode },
        statusWrites := [(INSTALL_STATUS_CONNECTING, noExtra),
                         (INSTALL_STATUS_CHECKING, noExtra),
                         (INSTALL_STATUS_PREPARING, noExtra),
                         (INSTALL_STATUS_INSTALLING, noExtra),
                         (INSTALL_STATUS_MONITORING, noExtra),
                         (INSTALL_STATUS_TIMEOUT, noExtra)],
        prepareInvoked := true, installInvoked := true } := by
  simp [process_installation, hc, hconn, Nat.not_lt.mpr hram, Nat.not_lt.mpr hdisk,
    hos, hprep, hinst, hmon]

/-! ## Claim theorems -/

/-- Claim C1 (counterexample): the claim that a timeout run persists the RDP
payload to the ledger is false.  In a run whose monitoring loop ends in the
timeout branch, replaying its status writes onto the freshly created ledger
row leaves the stored `rdp_info` empty, not populated with the user-chosen
secret. -/
theorem timeout_stored_rdp_counterexample :
    (process_installation "203.0.113.5" "Secretpw1" envTimeoutRun).map (fun out =>
        (out.finalStatus,
         (applyStatusWrites
            (create_installation "install_3_cccccccc" 3 "203.0.113.5" "unknown" 0)
            100 out.statusWrites).rdpInfo)) =
      some (INSTALL_STATUS_TIMEOUT, none) := by
  decide

/-- Claim C1 (amended): when the monitoring loop ends in the timeout branch,
the orchestrator's timeout status write carries no side-payload, so the
stored record keeps `rdp_info` null while receiving the timeout error text;
the RDP payload (address, fixed port 22, `Administrator`, the user-chosen
secret) is populated only in the in-memory result returned to the caller. -/
theorem timeout_ledger_write_has_no_rdp (ip pw : String) (env : OrchestratorEnv)
    (rec : InstallRecord) (now : Nat)
    (hc : env.createOk = true) (hconn : (sshConnect env.connectOutcome).1 = true)
    (hram : MIN_RAM_MB ≤ env.specs.ram_mb) (hdisk : MIN_DISK_GB ≤ env.specs.disk_gb)
    (hos : env.specs.os_type ∈ SUPPORTED_OS_TYPES)
    (hprep : env.prepareResult.1 = true) (hinst : env.installResult.1 = true)
    (hmon : monitorLoop 0 env.monitorTrace = some MonitorOutcome.timedOut)
    (hrdp : rec.rdpInfo = none) :
    (process_installation ip pw env).map (fun out =>
        (out.finalStatus, out.result.rdpInfo, out.statusWrites.getLast?,
         (applyStatusWrites rec now out.statusWrites).rdpInfo,
         (applyStatusWrites rec now out.statusWrites).error)) =
      some (INSTALL_STATUS_TIMEOUT,
            some { ip := ip, port := RDP_PORT, username := "Administrator", password := pw },
            some (INSTALL_STATUS_TIMEOUT, noExtra),
            none,
            some "Installation exceeded 30 minutes timeout") := by
  rw [process_installation_timeout_output ip pw env hc hconn hram hdisk hos hprep hinst hmon]
  simp [applyStatusWrites, update_status, hrdp,
    INSTALL_STATUS_CONNECTING, INSTALL_STATUS_CHECKING, INSTALL_STATUS_PREPARING,
    INSTALL_STATUS_INSTALLING, INSTALL_STATUS_MONITORING,
    INSTALL_STATUS_COMPLETED, INSTALL_STATUS_FAILED, INSTALL_STATUS_TIMEOUT, noExtra]

/-- Claim C1 (witness): the amended theorem applied to a concrete timeout
run and a concrete freshly created row. -/
theorem timeout_ledger_write_has_no_rdp_witness :
    (process_installation "203.0.113.5" "Secretpw1" envTimeoutRun).map (fun out =>
        (out.finalStatus, out.result.rdpInfo, out.statusWrites.getLast?,
         (applyStatusWrites
            (create_installation "install_3_cccccccc" 3 "203.0.113.5" "unknown" 0)
            100 out.statusWrites).rdpInfo,
         (applyStatusWrites
            (create_installation "install_3_cccccccc" 3 "203.0.113.5" "unknown" 0)
            100 out.statusWrites).error)) =
      some (INSTALL_STATUS_TIMEOUT,
            some { ip := "203.0.113.5", port := RDP_PORT,
                   username := "Administrator", password := "Secretpw1" },
            some (INSTALL_STATUS_TIMEOUT, noExtra),
            none,
            some "Installation exceeded 30 minutes timeout") :=
  timeout_ledger_write_has_no_rdp "203.0.113.5" "Secretpw1" envTimeoutRun
    (create_installation "install_3_cccccccc" 3 "203.0.113.5" "unknown" 0) 100
    rfl rfl (by decide) (by decide) (by decide) rfl rfl (by decide) rfl

/-- Claim C2: in the monitoring phase, a trace with two consecutive closed
probes whose second miss is observed in an iteration entered with the
elapsed monitoring clock at or below `1800 - 360` seconds makes the run
finish `completed` (never `timeout`, even when the misses are only at the
tail); conversely, when the elapsed clock exceeds `1800 - 360` seconds
before two consecutive misses accumulate, the run finishes `timeout`. -/
theorem monitoring_completion_vs_timeout :
    (∀ (ip pw : String) (env : OrchestratorEnv) (i : Nat),
       env.createOk = true → (sshConnect env.connectOutcome).1 = true →
       MIN_RAM_MB ≤ env.specs.ram_mb → MIN_DISK_GB ≤ env.specs.disk_gb →
       env.specs.os_type ∈ SUPPORTED_OS_TYPES →
       env.prepareResult.1 = true → env.installResult.1 = true →
       (env.monitorTrace[i]?).map Prod.snd = some false →
       (env.monitorTrace[i+1]?).map Prod.snd = some false →
       (∀ j, j ≤ i + 1 → ∀ t b, env.monitorTrace[j]? = some (t, b) →
         t ≤ maxMonitoringTime) →
       (process_installation ip pw env).map RunOutput.finalStatus =
         some INSTALL_STATUS_COMPLETED)
    ∧ (∀ (ip pw : String) (env : OrchestratorEnv) (k tk : Nat) (bk : Bool),
       env.createOk = true → (sshConnect env.connectOutcome).1 = true →
       MIN_RAM_MB ≤ env.specs.ram_mb → MIN_DISK_GB ≤ env.specs.disk_gb →
       env.specs.os_type ∈ SUPPORTED_OS_TYPES →
       env.prepareResult.1 = true → env.installResult.1 = true →
       env.monitorTrace[k]? = some (tk, bk) → maxMonitoringTime < tk →
       (∀ j t b, j < k → env.monitorTrace[j]? = some (t, b) → t ≤ maxMonitoringTime) →
       (∀ j, j + 1 < k →
         ¬((env.monitorTrace[j]?).map Prod.snd = some false ∧
            (env.monitorTrace[j+1]?).map Prod.snd = some false)) →
       (process_installation ip pw env).map RunOutput.finalStatus =
         some INSTALL_STATUS_TIMEOUT) := by
  constructor
  · intro ip pw env i hc hconn hram hdisk hos hprep hinst h0 h1 htime
    rw [process_installation_monitor_phase ip pw env hc hconn hram hdisk hos hprep hinst,
      monitorLoop_completes i env.monitorTrace 0 h0 h1 htime]
    rfl
  · intro ip pw env k tk bk hc hconn hram hdisk hos hprep hinst hk htk hbefore hnomiss
    rw [process_installation_monitor_phase ip pw env hc hconn hram hdisk hos hprep hinst,
      monitorLoop_times_out k env.monitorTrace tk bk hk htk hbefore hnomiss]
    rfl

/-- Claim C2 (witness): both directions at concrete monitoring traces — two
consecutive misses at the tail complete the run; a deadline crossing after a
single miss times it out. -/
theorem monitoring_completion_vs_timeout_witness :
    (process_installation "192.0.2.10" "Winpass123" envMonitorDone).map
        RunOutput.finalStatus = some INSTALL_STATUS_COMPLETED
    ∧ (process_installation "192.0.2.11" "Winpass123" envMonitorTimeout).map
        RunOutput.finalStatus = some INSTALL_STATUS_TIMEOUT := by
  constructor
  · apply monitoring_completion_vs_timeout.1 "192.0.2.10" "Winpass123" envMonitorDone 1
      rfl rfl (by decide) (by decide) (by decide) rfl rfl (by decide) (by decide)
    intro j hj t b hjb
    interval_cases j <;>
      simp only [envMonitorDone, List.getElem?_cons_zero, List.getElem?_cons_succ,
        Option.some.injEq, Prod.mk.injEq] at hjb <;>
      rw [show maxMonitoringTime = 1440 from rfl] <;> omega
  · apply monitoring_completion_vs_timeout.2 "192.0.2.11" "Winpass123" envMonitorTimeout 1
      1441 true rfl rfl (by decide) (by decide) (by decide) rfl rfl (by decide) (by decide)
      ?_ ?_
    · intro j t b hj hjb
      interval_cases j
      simp only [envMonitorTimeout, List.getElem?_cons_zero,
        Option.some.injEq, Prod.mk.injEq] at hjb
      rw [show maxMonitoringTime = 1440 from rfl]
      omega
    · intro j hj
      exact absurd hj (by omega)

/-- Claim C3 (counterexample): the claim that a timed-out command's result is
distinguishable from a non-timeout failure other than by the message text is
false — a failure whose exception text happens to equal the timeout message
produces a result identical to the timeout result in every component. -/
theorem execute_timeout_equals_failure_result :
    execute true TIMEOUT_SSH_EXECUTE ExecOutcome.timedOut =
      execute true TIMEOUT_SSH_EXECUTE
        (ExecOutcome.failure "Command timeout after 60 seconds") := by
  rfl

/-- Claim C3 (amended): `execute` reports a per-command timeout as
`ok = False` with empty stdout and the text `Command timeout after N seconds`
in the stderr slot — the same result shape as a non-timeout failure, so the
timeout is distinguishable from a command failure only by that free-text
message. -/
theorem execute_timeout_shape (timeout : Nat) (msg : String) :
    execute true timeout ExecOutcome.timedOut =
      (false, "", "Command timeout after " ++ toString timeout ++ " seconds")
    ∧ execute true timeout (ExecOutcome.failure msg) = (false, "", msg) := by
  constructor <;> rfl

/-- Claim C4: the checking phase evaluates RAM, then disk, then OS family,
short-circuiting to `failed` with the matching reason string, and in
particular a host with `ram_mb = 1024` fails with `Insufficient RAM` before
the preparation operation is ever invoked. -/
theorem checking_phase_short_circuit :
    (∀ (ip pw : String) (env : OrchestratorEnv),
       env.createOk = true → (sshConnect env.connectOutcome).1 = true →
       env.specs.ram_mb < MIN_RAM_MB →
       (process_installation ip pw env).map
         (fun o => (o.finalStatus, o.result.error, o.prepareInvoked)) =
         some (INSTALL_STATUS_FAILED, some "Insufficient RAM", false))
    ∧ (∀ (ip pw : String) (env : OrchestratorEnv),
       env.createOk = true → (sshConnect env.connectOutcome).1 = true →
       MIN_RAM_MB ≤ env.specs.ram_mb → env.specs.disk_gb < MIN_DISK_GB →
       (process_installation ip pw env).map
         (fun o => (o.finalStatus, o.result.error, o.prepareInvoked)) =
         some (INSTALL_STATUS_FAILED, some "Insufficient disk", false))
    ∧ (∀ (ip pw : String) (env : OrchestratorEnv),
       env.createOk = true → (sshConnect env.connectOutcome).1 = true →
       MIN_RAM_MB ≤ env.specs.ram_mb → MIN_DISK_GB ≤ env.specs.disk_gb →
       env.specs.os_type ∉ SUPPORTED_OS_TYPES →
       (process_installation ip pw env).map
         (fun o => (o.finalStatus, o.result.error, o.prepareInvoked)) =
         some (INSTALL_STATUS_FAILED, some "Unsupported OS", false))
    ∧ (∀ (ip pw : String) (env : OrchestratorEnv),
       env.createOk = true → (sshConnect env.connectOutcome).1 = true →
       env.specs.ram_mb = 1024 →
       (process_installation ip pw env).map
         (fun o => (o.finalStatus, o.result.error, o.prepareInvoked)) =
         some (INSTALL_STATUS_FAILED, some "Insufficient RAM", false)) := by
  refine ⟨?_, ?_, ?_, ?_⟩
  · intro ip pw env hc hconn hram
    simp [process_installation, hc, hconn, hram, failOutput]
  · intro ip pw env hc hconn hram hdisk
    simp [process_installation, hc, hconn, Nat.not_lt.mpr hram, hdisk, failOutput]
  · intro ip pw env hc hconn hram hdisk hos
    simp [process_installation, hc, hconn, Nat.not_lt.mpr hram, Nat.not_lt.mpr hdisk,
      hos, failOutput]
  · intro ip pw env hc hconn hram
    have hlt : env.specs.ram_mb < MIN_RAM_MB := by
      rw [hram]
      decide
    simp [process_installation, hc, hconn, hlt, failOutput]

/-- Claim C4 (witness): a concrete run against a 1024 MB host fails with
`Insufficient RAM` and never invokes preparation. -/
theorem checking_phase_short_circuit_witness :
    (process_installation "192.0.2.20" "Winpass123" envLowRam).map
        (fun o => (o.finalStatus, o.result.error, o.prepareInvoked)) =
      some (INSTALL_STATUS_FAILED, some "Insufficient RAM", false) :=
  checking_phase_short_circuit.2.2.2 "192.0.2.20" "Winpass123" envLowRam rfl rfl rfl

/-- Claim C5: every ledger read that surfaces an RDP payload — get-by-id and
list-by-owner — returns it with the port forced to the fixed RDP port 22,
whatever port value was persisted. -/
theorem rdp_port_normalized_on_reads :
    (∀ (recs : List InstallRecord) (installId : String) (rec : InstallRecord) (rdp : RdpInfo),
       getInstallation recs installId = some rec →
       rec.rdpInfo = some rdp → rdp.port = RDP_PORT)
    ∧ (∀ (recs : List InstallRecord) (userId : Nat) (statusFilter : Option String)
         (rec : InstallRecord) (rdp : RdpInfo),
       rec ∈ get_user_installations recs userId statusFilter →
       rec.rdpInfo = some rdp → rdp.port = RDP_PORT) := by
  constructor
  · intro recs installId rec rdp hget hrdp
    unfold getInstallation at hget
    rcases Option.map_eq_some'.mp hget with ⟨r0, -, hfmt⟩
    exact formatInstallation_port r0 rdp (hfmt ▸ hrdp)
  · intro recs userId statusFilter rec rdp hmem hrdp
    unfold get_user_installations at hmem
    rcases List.mem_map.mp hmem with ⟨r0, -, hfmt⟩
    exact formatInstallation_port r0 rdp (hfmt ▸ hrdp)

/-- Claim C5 (witness): reading a record persisted with stale port 9999
surfaces the payload with port 22. -/
theorem rdp_port_normalized_on_reads_witness :
    ({ staleRdp with port := RDP_PORT } : RdpInfo).port = RDP_PORT :=
  rdp_port_normalized_on_reads.1 [staleRecord] "install_7_deadbeef"
    (formatInstallation staleRecord) { staleRdp with port := RDP_PORT }
    (by decide) (by decide)

/-- Claim C6 (counterexample): the claim that every record reachable through
create / update-status / stuck-sweep satisfies "end_time non-null iff the
phase is terminal" is false — updating a completed record back to the
non-terminal `monitoring` status leaves its `end_time` set. -/
theorem completion_invariant_counterexample :
    ¬ completionInvariant
        (List.foldl applyLedgerOp
          (create_installation "install_1_aaaaaaaa" 1 "198.51.100.1" "unknown" 0)
          [LedgerOp.updateStatus 50 INSTALL_STATUS_COMPLETED noExtra,
           LedgerOp.updateStatus 60 INSTALL_STATUS_MONITORING noExtra]) := by
  decide

/-- Claim C6 (amended): create establishes the end_time/terminal invariant;
every terminal-status update and every stuck-sweep step (re-)establishes or
preserves it; a non-terminal-status update preserves it exactly when the
record is not already terminal (the only sequences the orchestrator
performs) — because `update_status` never clears `end_time`, a non-terminal
write onto a terminal record violates the invariant. -/
theorem completion_invariant_conditional :
    (∀ (installId : String) (userId : Nat) (ip bootMode : String) (now : Nat),
       completionInvariant (create_installation installId userId ip bootMode now))
    ∧ (∀ (rec : InstallRecord) (now : Nat) (status : String) (extra : ExtraData),
       status ∈ terminalStatuses →
       completionInvariant (update_status rec now status extra))
    ∧ (∀ (rec : InstallRecord) (now : Nat) (status : String) (extra : ExtraData),
       status ∉ terminalStatuses → rec.status ∉ terminalStatuses →
       completionInvariant rec →
       completionInvariant (update_status rec now status extra))
    ∧ (∀ (rec : InstallRecord) (now : Nat),
       completionInvariant rec → completionInvariant (sweepRecord now rec)) := by
  refine ⟨?_, ?_, ?_, ?_⟩
  · intro installId userId ip bootMode now
    simp [completionInvariant, create_installation, terminalStatuses,
      INSTALL_STATUS_STARTING, INSTALL_STATUS_COMPLETED, INSTALL_STATUS_FAILED,
      INSTALL_STATUS_TIMEOUT]
  · intro rec now status extra hmem
    simp only [terminalStatuses, List.mem_cons, List.mem_singleton,
      List.not_mem_nil, or_false] at hmem
    rcases extra with ⟨ri, bm, er⟩
    rcases hmem with h | h | h <;> subst h <;>
      cases ri <;> cases bm <;>
        simp [completionInvariant, update_status, terminalStatuses,
          INSTALL_STATUS_COMPLETED, INSTALL_STATUS_FAILED, INSTALL_STATUS_TIMEOUT]
  · intro rec now status extra hst hrec hinv
    simp only [terminalStatuses, List.mem_cons, List.mem_singleton,
      List.not_mem_nil, or_false, not_or] at hst hrec
    have hend : rec.endTime = none := by
      by_contra hne
      have := hinv.mp hne
      simp only [terminalStatuses, List.mem_cons, List.not_mem_nil, or_false] at this
      rcases this with h | h | h <;> exact absurd h (by tauto)
    rcases extra with ⟨ri, bm, er⟩
    simp [completionInvariant, update_status, hst.1, hst.2.1, hst.2.2,
      terminalStatuses, hend]
  · intro rec now hinv
    by_cases h : rec.startTime < now - TIMEOUT_INSTALLATION ∧ rec.status ∈ activeStatuses
    · rw [sweepRecord_eq_pos now rec h]
      simp [completionInvariant, terminalStatuses, INSTALL_STATUS_TIMEOUT]
    · rw [sweepRecord_eq_neg now rec h]
      exact hinv

/-- Claim C6 (witness): the amended theorem applied to a concrete completed
update of a freshly created row. -/
theorem completion_invariant_conditional_witness :
    completionInvariant
      (update_status (create_installation "install_2_bbbbbbbb" 2 "198.51.100.2" "unknown" 0)
        100 INSTALL_STATUS_COMPLETED noExtra) :=
  completion_invariant_conditional.2.1
    (create_installation "install_2_bbbbbbbb" 2 "198.51.100.2" "unknown" 0)
    100 INSTALL_STATUS_COMPLETED noExtra (by decide)

/-- Claim C7: `start_installation`'s success is determined solely by the
case-sensitive `Error`/`Failed` substring scan of the captured stderr: the
success flag returned by `execute` is never consulted, a marker-free stderr
yields a success result with the reboot command attempted (even when
`execute` reported `ok = False`), and the reboot attempt coincides exactly
with the success result. -/
theorem start_installation_marker_scan :
    (∀ installExec : ExecOutcome,
       ((start_installation true installExec).ok = true ↔
         ((execute true TIMEOUT_SSH_LONG installExec).2.2 != "" &&
           (containsSub (execute true TIMEOUT_SSH_LONG installExec).2.2 "Error" ||
            containsSub (execute true TIMEOUT_SSH_LONG installExec).2.2 "Failed")) = false)
       ∧ (start_installation true installExec).rebootAttempted =
           (start_installation true installExec).ok)
    ∧ (∀ installExec : ExecOutcome,
       containsSub (execute true TIMEOUT_SSH_LONG installExec).2.2 "Error" = false →
       containsSub (execute true TIMEOUT_SSH_LONG installExec).2.2 "Failed" = false →
       (start_installation true installExec).ok = true
       ∧ (start_installation true installExec).rebootAttempted = true)
    ∧ (start_installation true (ExecOutcome.failure "connection reset by peer")).ok = true
    ∧ (execute true TIMEOUT_SSH_LONG (ExecOutcome.failure "connection reset by peer")).1 =
        false := by
  refine ⟨?_, ?_, by decide, by decide⟩
  · intro installExec
    constructor
    · unfold start_installation
      cases hc : ((execute true TIMEOUT_SSH_LONG installExec).2.2 != "" &&
          (containsSub (execute true TIMEOUT_SSH_LONG installExec).2.2 "Error" ||
           containsSub (execute true TIMEOUT_SSH_LONG installExec).2.2 "Failed")) with
      | true => simp [hc]
      | false => simp [hc]
    · unfold start_installation
      cases hc : ((execute true TIMEOUT_SSH_LONG installExec).2.2 != "" &&
          (containsSub (execute true TIMEOUT_SSH_LONG installExec).2.2 "Error" ||
           containsSub (execute true TIMEOUT_SSH_LONG installExec).2.2 "Failed")) with
      | true => simp [hc]
      | false => simp [hc]
  · intro installExec hErr hFail
    constructor <;> simp [start_installation, hErr, hFail]

/-- Claim C7 (witness): the marker-free branch applied to the timed-out
install command — `execute` reports `ok = False` with the timeout message,
yet `start_installation` succeeds and schedules the reboot. -/
theorem start_installation_marker_scan_witness :
    (start_installation true ExecOutcome.timedOut).ok = true
    ∧ (start_installation true ExecOutcome.timedOut).rebootAttempted = true :=
  start_installation_marker_scan.2.1 ExecOutcome.timedOut (by decide) (by decide)

/-- Claim C8: the connect operation classifies failures into authentication,
unreachable/timeout and other; the orchestrator surfaces the classified
reason verbatim, an authentication failure is never reported with the
timeout reason, a timeout is never reported with the authentication reason,
and the catch-all reason can never collide with either. -/
theorem connect_reason_classification :
    (∀ (ip pw : String) (env : OrchestratorEnv), env.createOk = true →
       env.connectOutcome = ConnectOutcome.permissionDenied →
       (process_installation ip pw env).map
         (fun o => (o.finalStatus, o.result.error)) =
         some (INSTALL_STATUS_FAILED, some authFailedMsg))
    ∧ (∀ (ip pw : String) (env : OrchestratorEnv), env.createOk = true →
       env.connectOutcome = ConnectOutcome.timedOut →
       (process_installation ip pw env).map
         (fun o => (o.finalStatus, o.result.error)) =
         some (INSTALL_STATUS_FAILED, some connectTimeoutMsg))
    ∧ authFailedMsg ≠ connectTimeoutMsg
    ∧ (∀ msg : String,
        (sshConnect (ConnectOutcome.otherError msg)).2 ≠ authFailedMsg
        ∧ (sshConnect (ConnectOutcome.otherError msg)).2 ≠ connectTimeoutMsg) := by
  refine ⟨?_, ?_, by decide, ?_⟩
  · intro ip pw env hc hconn
    simp [process_installation, hc, hconn, sshConnect, failOutput]
  · intro ip pw env hc hconn
    simp [process_installation, hc, hconn, sshConnect, failOutput]
  · intro msg
    constructor
    · exact connError_ne_of_get11 msg authFailedMsg (by decide)
    · exact connError_ne_of_get11 msg connectTimeoutMsg (by decide)

/-- Claim C8 (witness): a concrete bad-credentials run fails with exactly
the authentication reason. -/
theorem connect_reason_classification_witness :
    (process_installation "198.51.100.7" "Passw0rd1" envAuthFail).map
        (fun o => (o.finalStatus, o.result.error)) =
      some (INSTALL_STATUS_FAILED, some authFailedMsg) :=
  connect_reason_classification.1 "198.51.100.7" "Passw0rd1" envAuthFail rfl rfl

/-- Claim C9: the stuck-job sweep is idempotent — running it twice at the
same instant over any ledger state equals running it once, since a record
swept to `timeout` is no longer non-terminal and a record left alone stays
ineligible. -/
theorem stuck_sweep_idempotent (now : Nat) (recs : List InstallRecord) :
    cleanup_stuck_installations now (cleanup_stuck_installations now recs) =
      cleanup_stuck_installations now recs := by
  unfold cleanup_stuck_installations
  induction recs with
  | nil => rfl
  | cons r rest ih =>
    simp only [List.map_cons, ih, sweepRecord_idem now r]

/-- Claim C10: for an installation's chronologically appended log, retrieval
with limit N is the reversal of the reverse-chronological fetch (hence the N
most recent entries in chronological order), the returned entries are in
chronological order, and when the log has at most N entries the full history
is returned in forward order. -/
theorem get_logs_chronological (logs : List LogEntry) (limit : Nat)
    (h : logs.Pairwise (fun a b => a.timestamp < b.timestamp)) :
    get_logs logs limit = (logs.reverse.take limit).reverse
    ∧ (get_logs logs limit).Pairwise (fun a b => a.timestamp < b.timestamp)
    ∧ (logs.length ≤ limit → get_logs logs limit = logs) := by
  have hs : sortDescBy LogEntry.timestamp logs = logs.reverse :=
    sortDescBy_of_pairwise LogEntry.timestamp logs h
  refine ⟨by rw [get_logs, hs], ?_, ?_⟩
  · rw [get_logs, hs]
    apply List.Pairwise.sublist _ h
    have h1 : (logs.reverse.take limit).Sublist logs.reverse :=
      List.take_sublist limit logs.reverse
    have h2 := h1.reverse
    rwa [List.reverse_reverse] at h2
  · intro hlen
    rw [get_logs, hs, List.take_of_length_le (by simpa using hlen), List.reverse_reverse]

/-- Claim C10 (witness): a three-entry history below the limit comes back
whole in forward chronological order. -/
theorem get_logs_chronological_witness :
    get_logs [LogEntry.mk 5 "Installation started",
              LogEntry.mk 8 "Status changed to: connecting",
              LogEntry.mk 11 "Checking system specifications"] 50 =
      [LogEntry.mk 5 "Installation started",
       LogEntry.mk 8 "Status changed to: connecting",
       LogEntry.mk 11 "Checking system specifications"] :=
  (get_logs_chronological _ 50 (by simp)).2.2 (by simp)

end WinInstaller
